import Mathlib

/-!
Shallow embedding of `create_new_webmap.py`: the popup synthesis and
layer-resolution subsystem of the web-map creation tool, together with the
surrounding CRUD pipeline (modelled over an abstract portal environment).
Dictionaries of the Python code become structures, in-place mutation becomes
functional update, and Python exceptions become `Except PyErr`.
-/

set_option autoImplicit false

namespace WebmapPopups

/-- Python exception kinds that the embedded code can raise.  `notFoundError`
is the error kind named by the documentation for the no-match case; the code
itself produces `unboundLocalError` there (an uninitialized local variable). -/
inductive PyErr where
  | typeError (msg : String)
  | keyError (msg : String)
  | unboundLocalError (name : String)
  | indexError
  | notFoundError
deriving DecidableEq, Repr

/-- A numeric display format: `{"places": n, "digitSeparator": b}`. -/
structure FormatRule where
  places : Nat
  digitSeparator : Bool
deriving DecidableEq, Repr

/-- One entry of `popupInfo["fieldInfos"]`.  `label` is optional: accessing a
missing `label` key raises `KeyError` in the source.  `visible` stands for the
further per-entry data that the code never touches. -/
structure FieldInfo where
  fieldName : String
  label : Option String
  format : Option FormatRule
  visible : Bool
deriving DecidableEq, Repr

/-- The `popupInfo` dictionary of an operational layer.  `showAttachments`
stands for the further popup data that the code never touches. -/
structure PopupInfo where
  title : String
  description : String
  fieldInfos : List FieldInfo
  showAttachments : Bool
deriving DecidableEq, Repr

/-- One schema field of a service layer (`properties.fields` entries):
a `name` and an esri type tag such as `"esriFieldTypeDouble"`. -/
structure Field where
  name : String
  type : String
deriving DecidableEq, Repr

/-- A layer of a feature-layer collection (service side): its declared
`properties.name`, its own `popupInfo` (used in the registered case), and its
schema fields. -/
structure ServiceLayer where
  name : String
  popupInfo : Option PopupInfo
  fields : List Field
deriving DecidableEq, Repr

/-- An operational layer of a web-map definition.  `url` stands for the
further per-layer data that the popup code never touches. -/
structure OperationalLayer where
  title : String
  popupInfo : Option PopupInfo
  url : String
deriving DecidableEq, Repr

/-- A web-map definition: the ordered `operationalLayers` list. -/
structure WebMapDef where
  operationalLayers : List OperationalLayer
deriving DecidableEq, Repr

/-- Python's substring test `needle in hay`. -/
def strContains (hay needle : String) : Bool :=
  (List.range (hay.length + 1)).any (fun i => needle.data.isPrefixOf (hay.data.drop i))

/-- Python's default `str.strip` whitespace set (ASCII part). -/
def isPySpace (c : Char) : Bool :=
  c == ' ' || c == '\t' || c == '\n' || c == '\r' || c == '\x0b' || c == '\x0c'

/-- One step of the `split_uppercase` loop: `' %s' % i if i.isupper() else i`. -/
def expandChar (c : Char) : List Char :=
  if c.isUpper then [' ', c] else [c]

/-- Python `str.lstrip()` on a character list. -/
def pyStripStart (l : List Char) : List Char := l.dropWhile isPySpace

/-- Python `str.rstrip()` on a character list. -/
def pyStripEnd (l : List Char) : List Char := (l.reverse.dropWhile isPySpace).reverse

/-- Python `str.strip()` on a character list. -/
def pyStrip (l : List Char) : List Char := pyStripEnd (pyStripStart l)

/-- `split_uppercase(word)`: prepend a space before every uppercase letter,
then strip the result. -/
def split_uppercase (word : String) : String :=
  String.mk (pyStrip (word.data.flatMap expandChar))

/-- `NO_POPUP_FIELDS`: field identifiers excluded from popup descriptions. -/
def NO_POPUP_FIELDS : List String :=
  ["OBJECTID", "ORIG_FID", "ORIG_FID_1", "Shape.STArea()",
   "Shape.STLength()", "Shape__Area", "Shape__lenght", "Shape"]

/-- The loop body of `customize_popup_description` for one field-info entry:
either a rendered `<b> label :</b>` line, the empty string, or a `KeyError`
when the hosted branch reads a missing `label` key. -/
def field_popup_line (field : FieldInfo) : Except PyErr String :=
  if field.fieldName.data.any Char.isUpper && !(NO_POPUP_FIELDS.contains field.fieldName) then
    Except.ok ("<b> " ++ split_uppercase field.fieldName ++ " :</b>  \x7b" ++
      field.fieldName ++ "\x7d  <br /><br />")
  else
    match field.label with
    | Option.none => Except.error (PyErr.keyError "label")
    | Option.some lab =>
      if lab.data.any Char.isUpper && !(NO_POPUP_FIELDS.contains lab) then
        Except.ok ("<b> " ++ split_uppercase lab ++ " :</b>  \x7b" ++
          lab ++ "\x7d  <br /><br />")
      else
        Except.ok ""

/-- `customize_popup_description(operational_layer, map_service_type)`:
the fixed font prefix followed by one line per qualifying field-info entry of
the operational layer's popup, in `fieldInfos` order. -/
def customize_popup_description (operational_layer : OperationalLayer)
    (map_service_type : String) : Except PyErr String :=
  let base := "<font color=\x27#dc143c\x27 face=\x27Arial\x27 size=\x272\x27>"
  if map_service_type = "Feature Layer" then
    match operational_layer.popupInfo with
    | Option.none => Except.error (PyErr.keyError "popupInfo")
    | Option.some popup =>
      popup.fieldInfos.foldlM
        (fun acc field => (field_popup_line field).map (fun piece => acc ++ piece)) base
  else
    Except.ok base

/-- The numeric format rule for an esri field type: the branch conditions of
the `FieldsFormatted` loop. -/
def numericRule (t : String) : Option FormatRule :=
  if t = "esriFieldTypeDouble" then Option.some { places := 2, digitSeparator := false }
  else if t = "esriFieldTypeInteger" then Option.some { places := 0, digitSeparator := false }
  else Option.none

/-- Overwrite an old format by a rule when one applies. -/
def overrideFormat (rule old : Option FormatRule) : Option FormatRule :=
  match rule with
  | Option.some r => Option.some r
  | Option.none => old

/-- One step of the inner `FieldsFormatted` loop, acting on the format only. -/
def ruleStep (nm : String) (cur : Option FormatRule) (fld : Field) : Option FormatRule :=
  if nm = fld.name then overrideFormat (numericRule fld.type) cur else cur

/-- The rule imposed by the last schema field with the given name and a
numeric type, if any: the net effect of the inner loop on a format. -/
def lastNumericRule (fields : List Field) (nm : String) : Option FormatRule :=
  fields.foldl (ruleStep nm) Option.none

/-- One step of the inner `FieldsFormatted` loop of `feature_layer_popup`:
the `if`/`elif` on `fld.type` for one schema field. -/
def applyStep (f : FieldInfo) (fld : Field) : FieldInfo :=
  if f.fieldName = fld.name ∧ fld.type = "esriFieldTypeDouble" then
    { f with format := Option.some { places := 2, digitSeparator := false } }
  else if f.fieldName = fld.name ∧ fld.type = "esriFieldTypeInteger" then
    { f with format := Option.some { places := 0, digitSeparator := false } }
  else f

/-- The full inner loop of `FieldsFormatted` applied to one field-info entry:
`for fld in target_layer.properties.fields: ...`. -/
def apply_field_formats (fields : List Field) (field : FieldInfo) : FieldInfo :=
  fields.foldl applyStep field

/-- The popup-synthesis core of `feature_layer_popup` (its body after the
operational layer and the target schema layer are in hand): resolve the popup
(hosted keeps its own, registered copies the target's), set title and
description, then rewrite the numeric field formats. -/
def feature_layer_popup_synth (operational_layer : OperationalLayer)
    (target_layer : ServiceLayer) (map_service_type layer_name : String) :
    Except PyErr OperationalLayer :=
  let popupRes : Except PyErr PopupInfo :=
    match operational_layer.popupInfo with
    | Option.some p => Except.ok p
    | Option.none =>
      match target_layer.popupInfo with
      | Option.some tp => Except.ok tp
      | Option.none => Except.error (PyErr.keyError "popupInfo")
  match popupRes with
  | Except.error e => Except.error e
  | Except.ok popup0 =>
    let popup1 := { popup0 with title := layer_name }
    let layer1 := { operational_layer with popupInfo := Option.some popup1 }
    match customize_popup_description layer1 map_service_type with
    | Except.error e => Except.error e
    | Except.ok desc =>
      let popup2 := { popup1 with description := desc }
      let popup3 := { popup2 with
        fieldInfos := popup2.fieldInfos.map (apply_field_formats target_layer.fields) }
      Except.ok { operational_layer with popupInfo := Option.some popup3 }

/-- The last-match scan shared by `get_feature_layer_index` (`layer_index` is
overwritten at every match) keeping the running index. -/
def scan_last_idx {α : Type} (p : α → Bool) : List α → Nat → Option Nat → Option Nat
  | [], _, acc => acc
  | x :: xs, i, acc => scan_last_idx p xs (i + 1) (if p x then Option.some i else acc)

/-- The last-match scan of `get_webmap_operational_layers` (`operational_layer`
is overwritten at every match) keeping the matching element. -/
def scan_last {α : Type} (p : α → Bool) : List α → Option α → Option α
  | [], acc => acc
  | x :: xs, acc => scan_last p xs (if p x then Option.some x else acc)

/-- `get_feature_layer_index(feature_layer_collection, layer_name)`: index of
the last layer whose declared name contains `layer_name`; reading the never
assigned `layer_index` on zero matches is the uninitialized-local fault. -/
def get_feature_layer_index (layers : List ServiceLayer) (layer_name : String) :
    Except PyErr Nat :=
  match scan_last_idx (fun l => strContains l.name layer_name) layers 0 Option.none with
  | Option.some i => Except.ok i
  | Option.none => Except.error (PyErr.unboundLocalError "layer_index")

/-- `get_webmap_operational_layers(web_map, layer_name)`: the last operational
layer whose title contains `layer_name`; zero matches leave the local
`operational_layer` unassigned. -/
def get_webmap_operational_layers (web_map : WebMapDef) (layer_name : String) :
    Except PyErr OperationalLayer :=
  match scan_last (fun l => strContains l.title layer_name)
      web_map.operationalLayers Option.none with
  | Option.some l => Except.ok l
  | Option.none => Except.error (PyErr.unboundLocalError "operational_layer")

/-- Whether the first character is uppercase (the one case where the space
inserted by `split_uppercase` is removed again by the strip). -/
def headUpperL (l : List Char) : Bool :=
  match l.head? with
  | Option.some c => c.isUpper
  | Option.none => false

/-- `headUpperL` on a string. -/
def headUpper (w : String) : Bool := headUpperL w.data

/-- The item-properties dictionary built by `get_properties_from_project`
(`title := none` models the dict comprehension that removes the title key). -/
structure PropDict where
  title : Option String
  snippet : String
  description : String
  tags : List String
  accessInformation : String
  licenseInfo : String
deriving DecidableEq, Repr

/-- `get_properties_from_project(project_name, content_type,
project_additional_info)`. -/
def get_properties_from_project (project_name content_type : String)
    (project_additional_info : List String) : PropDict :=
  let font := "<font color=\x27#8b0000\x27 size=\x274\x27><font style=\x27font-family: inherit;\x27>"
  let base : PropDict :=
    { title := Option.some (project_name ++ "_" ++ content_type)
      snippet := "This is a " ++ content_type ++ " of " ++ project_name ++ " project."
      description := font ++ "This is a " ++ content_type ++ " of " ++ project_name ++ " project."
      tags := project_name :: project_additional_info
      accessInformation := "Data Center"
      licenseInfo := font ++ "All rights reserved." }
  if content_type ≠ "WebMap" then { base with title := Option.none } else base

/-- A portal item as the code uses it: an id, a title, its layer list, and the
optional bulk data payload returned by `get_data()` (absent for hosted
collections). -/
structure Item where
  id : String
  title : String
  layers : List ServiceLayer
  dataPayload : Option (List ServiceLayer)
deriving DecidableEq, Repr

/-- One observable call against the portal collaborator. -/
inductive Effect where
  | search (query itemType : String)
  | getItem (id : String)
  | getData (id : String)
  | update (id : String) (props : PropDict)
  | protect (id : String)
  | share (id : String) (dst : String)
  | saveMap (wm : WebMapDef) (props : PropDict)
deriving DecidableEq, Repr

/-- The portal collaborator: search results, retrieval by id, and the
conversion `WebMap.add_layer` performs from a service layer to an operational
layer. -/
structure PortalEnv where
  searchFor : String → String → List Item
  getById : String → Option Item
  mkOperationalLayer : ServiceLayer → OperationalLayer

/-- A computation against the portal: the effects performed so far (kept even
when an exception propagates) and the result. -/
abbrev Eff (α : Type) : Type := List Effect × Except PyErr α

instance : Monad Eff where
  pure a := ([], Except.ok a)
  bind x f :=
    match x.2 with
    | Except.error e => (x.1, Except.error e)
    | Except.ok a => (x.1 ++ (f a).1, (f a).2)

/-- Record portal effects. -/
def effTell (es : List Effect) : Eff Unit := (es, Except.ok ())

/-- Raise a Python exception. -/
def effFail {α : Type} (e : PyErr) : Eff α := ([], Except.error e)

/-- `get_portal_item(portal_connection, item_name, item_type)`: search, take
the first hit, re-fetch it by id; `KeyError` when either step comes up empty. -/
def get_portal_item (env : PortalEnv) (item_name item_type : String) : Eff Item := do
  effTell [Effect.search item_name item_type]
  match env.searchFor item_name item_type with
  | [] => effFail (PyErr.keyError ("unable to find " ++ item_name))
  | item :: _ => do
    effTell [Effect.getItem item.id]
    match env.getById item.id with
    | Option.none =>
      effFail (PyErr.keyError ("unable to find an item with id of \x27" ++ item.id ++ "\x27"))
    | Option.some portal_item => pure portal_item

/-- `get_feature_layers_collection(project_name)`. -/
def get_feature_layers_collection (env : PortalEnv) (project_name : String) : Eff Item :=
  get_portal_item env (project_name ++ "_Map") "Feature Layer"

/-- `protect_share_item(portal_item)`: protect from deletion, share in the
organization. -/
def protect_share_item (portal_item : Item) : Eff Unit :=
  effTell [Effect.protect portal_item.id, Effect.share portal_item.id "org"]

/-- `get_feature_layer_from_feature_service(...)`: fetch the collection and
its data payload, resolve the layer index, then take the layer from the
collection itself (hosted) or from the payload (registered). -/
def get_feature_layer_from_feature_service (env : PortalEnv)
    (map_service_name map_service_type layer_name : String) : Eff ServiceLayer := do
  let feature_layers ← get_portal_item env map_service_name map_service_type
  effTell [Effect.getData feature_layers.id]
  match get_feature_layer_index feature_layers.layers layer_name with
  | Except.error e => effFail e
  | Except.ok layer_index =>
    match feature_layers.dataPayload with
    | Option.none =>
      match feature_layers.layers.get? layer_index with
      | Option.some target_layer => pure target_layer
      | Option.none => effFail PyErr.indexError
    | Option.some data_layers =>
      match data_layers.get? layer_index with
      | Option.some target_layer => pure target_layer
      | Option.none => effFail PyErr.indexError

/-- `feature_layer_popup(...)`: locate the operational layer (last title
match), fetch the target schema layer, run the synthesis core, and write the
mutated layer back into the web map. -/
def feature_layer_popup (env : PortalEnv) (map_service_name map_service_type : String)
    (web_map : WebMapDef) (layer_name : String) : Eff WebMapDef :=
  match scan_last_idx (fun l => strContains l.title layer_name)
      web_map.operationalLayers 0 Option.none with
  | Option.none => effFail (PyErr.unboundLocalError "operational_layer")
  | Option.some i =>
    match web_map.operationalLayers.get? i with
    | Option.none => effFail PyErr.indexError
    | Option.some operational_layer => do
      let target_layer ← get_feature_layer_from_feature_service env
        map_service_name map_service_type layer_name
      match feature_layer_popup_synth operational_layer target_layer
          map_service_type layer_name with
      | Except.error e => effFail e
      | Except.ok layer2 => pure { operationalLayers := web_map.operationalLayers.set i layer2 }

/-- `create_popups(web_map, project_name, layer_names)`: one
`feature_layer_popup` call per layer name, against `{project_name}_Map`. -/
def create_popups (env : PortalEnv) (web_map : WebMapDef) (project_name : String)
    (layer_names : List String) : Eff WebMapDef :=
  if layer_names.isEmpty then pure web_map
  else
    layer_names.foldlM
      (fun wm layer_name =>
        feature_layer_popup env (project_name ++ "_Map") "Feature Layer" wm layer_name)
      web_map

/-- A Python value, for the dynamic `isinstance` checks of
`create_new_webmap`. -/
inductive PyVal where
  | str (s : String)
  | int (n : Int)
  | list (xs : List PyVal)
  | nothing

/-- `isinstance(v, str)`. -/
def PyVal.isStr : PyVal → Bool
  | PyVal.str _ => true
  | _ => false

/-- `isinstance(v, list)`. -/
def PyVal.isList : PyVal → Bool
  | PyVal.list _ => true
  | _ => false

/-- The string payload of a Python value (only used after the checks pass). -/
def PyVal.asStr : PyVal → String
  | PyVal.str s => s
  | _ => ""

/-- The per-element `isinstance(layer_name, str)` loop of
`create_new_webmap`. -/
def check_layer_names : List PyVal → Except PyErr Unit
  | [] => Except.ok ()
  | x :: xs =>
    match x with
    | PyVal.str _ => check_layer_names xs
    | _ => Except.error (PyErr.typeError "expected layer name to be type of str")

/-- `create_new_webmap(project_name, layer_names, *args)`: the isinstance
checks, then the fetch/update/protect/share of the feature-layer collection,
web-map assembly, popup creation, and the final save. -/
def create_new_webmap (env : PortalEnv) (project_name layer_names : PyVal)
    (args : List String) : Eff Unit :=
  match project_name with
  | PyVal.str pn =>
    (match layer_names with
     | PyVal.list lns =>
       (match check_layer_names lns with
        | Except.error e => effFail e
        | Except.ok _ => do
          let feature_layers ← get_feature_layers_collection env pn
          let feature_layers_properties :=
            get_properties_from_project pn "Feature Layer" args
          effTell [Effect.update feature_layers.id feature_layers_properties]
          protect_share_item feature_layers
          let new_web_map : WebMapDef :=
            { operationalLayers := feature_layers.layers.map env.mkOperationalLayer }
          let web_map_properties := get_properties_from_project pn "WebMap" args
          let web_map2 ← create_popups env new_web_map pn (lns.map PyVal.asStr)
          effTell [Effect.saveMap web_map2 web_map_properties]
          pure ())
     | _ => effFail (PyErr.typeError "expected layer names to be type of list"))
  | _ => effFail (PyErr.typeError "expected project name to be type of str")

/-- A portal environment with no content, used to instantiate universally
quantified statements at a concrete input. -/
def trivialEnv : PortalEnv :=
  { searchFor := fun _ _ => []
    getById := fun _ => Option.none
    mkOperationalLayer := fun _ => { title := "", popupInfo := Option.none, url := "" } }

/-- Sample hosted popup (already present on the operational layer). -/
def cw2P : PopupInfo :=
  { title := "t0", description := "d0",
    fieldInfos :=
      [{ fieldName := "RoadName", label := Option.none, format := Option.none, visible := true }],
    showAttachments := true }

/-- Sample hosted operational layer. -/
def cw2Ol : OperationalLayer :=
  { title := "Roads layer", popupInfo := Option.some cw2P, url := "u" }

/-- Sample schema layer with one double-typed field. -/
def cw2Target : ServiceLayer :=
  { name := "Roads", popupInfo := Option.none,
    fields := [{ name := "RoadName", type := "esriFieldTypeDouble" }] }

/-- The popup of the synthesis result on the sample hosted layer. -/
def cw2ResP : PopupInfo :=
  { title := "Roads",
    description := "<font color=\x27#dc143c\x27 face=\x27Arial\x27 size=\x272\x27><b> Road Name :</b>  \x7bRoadName\x7d  <br /><br />",
    fieldInfos := [⟨"RoadName", Option.none, Option.some ⟨2, false⟩, true⟩],
    showAttachments := true }

/-- The synthesis result on the sample hosted layer. -/
def cw2Res : OperationalLayer :=
  { cw2Ol with popupInfo := Option.some cw2ResP }

/-- Sample registered operational layer (popup absent at the start). -/
def cw3Ol : OperationalLayer :=
  { title := "Parcels layer", popupInfo := Option.none, url := "u3" }

/-- The portal-assigned popup carried by the sample registered schema layer. -/
def cw3Tp : PopupInfo :=
  { title := "tp", description := "dp",
    fieldInfos :=
      [{ fieldName := "LandUseCode", label := Option.none, format := Option.none, visible := true }],
    showAttachments := false }

/-- Sample registered schema layer with one integer-typed field. -/
def cw3Target : ServiceLayer :=
  { name := "Parcels", popupInfo := Option.some cw3Tp,
    fields := [{ name := "LandUseCode", type := "esriFieldTypeInteger" }] }

/-- The popup of the synthesis result on the sample registered layer. -/
def cw3ResP : PopupInfo :=
  { title := "Parcels",
    description := "<font color=\x27#dc143c\x27 face=\x27Arial\x27 size=\x272\x27><b> Land Use Code :</b>  \x7bLandUseCode\x7d  <br /><br />",
    fieldInfos := [⟨"LandUseCode", Option.none, Option.some ⟨0, false⟩, true⟩],
    showAttachments := false }

/-- The synthesis result on the sample registered layer. -/
def cw3Res : OperationalLayer :=
  { cw3Ol with popupInfo := Option.some cw3ResP }

/-- Sample popup with three entries, one per schema field kind. -/
def cw4P : PopupInfo :=
  { title := "t", description := "d",
    fieldInfos :=
      [{ fieldName := "AvgValue", label := Option.none, format := Option.none, visible := true },
       { fieldName := "UnitCount", label := Option.none, format := Option.none, visible := true },
       { fieldName := "ZoneName", label := Option.none, format := Option.none, visible := true }],
    showAttachments := false }

/-- Sample hosted operational layer for the format rules. -/
def cw4Ol : OperationalLayer :=
  { title := "Zones layer", popupInfo := Option.some cw4P, url := "u4" }

/-- Sample schema layer with distinct field names: a double, an integer, and
a string field. -/
def cw4Target : ServiceLayer :=
  { name := "Zones", popupInfo := Option.none,
    fields := [{ name := "AvgValue", type := "esriFieldTypeDouble" },
               { name := "UnitCount", type := "esriFieldTypeInteger" },
               { name := "ZoneName", type := "esriFieldTypeString" }] }

/-- The popup of the synthesis result on the three-field sample. -/
def cw4ResP : PopupInfo :=
  { title := "Zones",
    description := "<font color=\x27#dc143c\x27 face=\x27Arial\x27 size=\x272\x27><b> Avg Value :</b>  \x7bAvgValue\x7d  <br /><br /><b> Unit Count :</b>  \x7bUnitCount\x7d  <br /><br /><b> Zone Name :</b>  \x7bZoneName\x7d  <br /><br />",
    fieldInfos :=
      [⟨"AvgValue", Option.none, Option.some ⟨2, false⟩, true⟩,
       ⟨"UnitCount", Option.none, Option.some ⟨0, false⟩, true⟩,
       ⟨"ZoneName", Option.none, Option.none, true⟩],
    showAttachments := false }

/-- The synthesis result on the three-field sample. -/
def cw4Res : OperationalLayer :=
  { cw4Ol with popupInfo := Option.some cw4ResP }

/-- The popup of the duplicated-name example: one entry named after both
schema fields. -/
def ce4P : PopupInfo :=
  { title := "t", description := "d",
    fieldInfos :=
      [{ fieldName := "X", label := Option.none, format := Option.none, visible := true }],
    showAttachments := false }

/-- An operational layer for the duplicated-name example. -/
def ce4Ol : OperationalLayer :=
  { title := "L title", popupInfo := Option.some ce4P, url := "url" }

/-- A schema layer with a duplicated field name: `X` as double, then `X` as
integer. -/
def ce4Target : ServiceLayer :=
  { name := "L", popupInfo := Option.none,
    fields := [{ name := "X", type := "esriFieldTypeDouble" },
               { name := "X", type := "esriFieldTypeInteger" }] }

/-- The description built for the duplicated-name layer. -/
def ce4Desc : String :=
  "<font color=\x27#dc143c\x27 face=\x27Arial\x27 size=\x272\x27><b> X :</b>  \x7bX\x7d  <br /><br />"

/-- The popup of the synthesis result on the duplicated-name example. -/
def ce4ResP : PopupInfo :=
  { title := "L", description := ce4Desc,
    fieldInfos := [⟨"X", Option.none, Option.some ⟨0, false⟩, true⟩],
    showAttachments := false }

/-- The synthesis result on the duplicated-name example. -/
def ce4Res : OperationalLayer :=
  { title := "L title", popupInfo := Option.some ce4ResP, url := "url" }

/-- The popup of the description test exactly as the claim states it: field
infos carrying only `fieldName`, no `label`. -/
def ce5P : PopupInfo :=
  { title := "t", description := "d",
    fieldInfos :=
      [{ fieldName := "OBJECTID", label := Option.none, format := Option.none, visible := true },
       { fieldName := "LandUseCode", label := Option.none, format := Option.none, visible := true }],
    showAttachments := false }

/-- The operational layer of the description test as the claim states it. -/
def ce5Ol : OperationalLayer :=
  { title := "T", popupInfo := Option.some ce5P, url := "u" }

/-- The same popup with a `label` key on the excluded `OBJECTID` entry, the
shape portal field infos actually have. -/
def am5P : PopupInfo :=
  { title := "t", description := "d",
    fieldInfos :=
      [⟨"OBJECTID", Option.some "OBJECTID", Option.none, true⟩,
       ⟨"LandUseCode", Option.none, Option.none, true⟩],
    showAttachments := false }

/-- The operational layer with the labelled excluded entry. -/
def am5Ol : OperationalLayer :=
  { title := "T", popupInfo := Option.some am5P, url := "u" }

/-- An operational layer with its popup replaced. -/
def withPopup (ol : OperationalLayer) (p : PopupInfo) : OperationalLayer :=
  { ol with popupInfo := Option.some p }

/-- The popup produced by the synthesis from a source popup `p`: retitled,
given the built description, and with its field formats rewritten. -/
def synthPopup (p : PopupInfo) (ln desc : String) (fields : List Field) : PopupInfo :=
  { title := ln, description := desc,
    fieldInfos := p.fieldInfos.map (apply_field_formats fields),
    showAttachments := p.showAttachments }

/-- Splitting the index-carrying scan at an append. -/
theorem scan_last_idx_append {α : Type} (p : α → Bool) (a b : List α) (i : Nat)
    (acc : Option Nat) :
    scan_last_idx p (a ++ b) i acc = scan_last_idx p b (i + a.length) (scan_last_idx p a i acc) := by
  induction a generalizing i acc with
  | nil => simp [scan_last_idx]
  | cons x t ih =>
    show scan_last_idx p (t ++ b) (i + 1) (if p x then Option.some i else acc) =
      scan_last_idx p b (i + (x :: t).length) (scan_last_idx p (x :: t) i acc)
    rw [ih]
    have h : i + 1 + t.length = i + (x :: t).length := by
      simp only [List.length_cons]
      omega
    rw [h]
    rfl

/-- A scan over unmatched elements keeps its accumulator. -/
theorem scan_last_idx_nomatch {α : Type} (p : α → Bool) (b : List α) (i : Nat)
    (acc : Option Nat) (h : ∀ x ∈ b, p x = false) :
    scan_last_idx p b i acc = acc := by
  induction b generalizing i acc with
  | nil => rfl
  | cons x t ih =>
    simp only [scan_last_idx, h x (List.mem_cons_self x t), Bool.false_eq_true, if_false]
    exact ih _ _ (fun y hy => h y (List.mem_cons_of_mem _ hy))

/-- Splitting the element-carrying scan at an append. -/
theorem scan_last_append {α : Type} (p : α → Bool) (a b : List α) (acc : Option α) :
    scan_last p (a ++ b) acc = scan_last p b (scan_last p a acc) := by
  induction a generalizing acc with
  | nil => rfl
  | cons x t ih =>
    show scan_last p (t ++ b) (if p x then Option.some x else acc) =
      scan_last p b (scan_last p (x :: t) acc)
    rw [ih]
    rfl

/-- The element-carrying scan over unmatched elements keeps its accumulator. -/
theorem scan_last_nomatch {α : Type} (p : α → Bool) (b : List α) (acc : Option α)
    (h : ∀ x ∈ b, p x = false) :
    scan_last p b acc = acc := by
  induction b generalizing acc with
  | nil => rfl
  | cons x t ih =>
    simp only [scan_last, h x (List.mem_cons_self x t), Bool.false_eq_true, if_false]
    exact ih _ (fun y hy => h y (List.mem_cons_of_mem _ hy))

/-- C1 (confirmed): when at least one layer name contains the target as a
substring, `get_feature_layer_index` returns the index of the last matching
layer of the scan (any earlier matches in `pre` are overwritten), and
`get_webmap_operational_layers` likewise returns the last operational layer
whose title matches. -/
theorem C1_last_match_wins :
    (∀ (layers : List ServiceLayer) (layer_name : String)
       (pre post : List ServiceLayer) (x : ServiceLayer),
       layers = pre ++ x :: post →
       strContains x.name layer_name = true →
       (∀ y ∈ post, strContains y.name layer_name = false) →
       get_feature_layer_index layers layer_name = Except.ok pre.length) ∧
    (∀ (web_map : WebMapDef) (layer_name : String)
       (pre post : List OperationalLayer) (x : OperationalLayer),
       web_map.operationalLayers = pre ++ x :: post →
       strContains x.title layer_name = true →
       (∀ y ∈ post, strContains y.title layer_name = false) →
       get_webmap_operational_layers web_map layer_name = Except.ok x) := by
  constructor
  · intro layers layer_name pre post x hdec hx hpost
    subst hdec
    unfold get_feature_layer_index
    rw [scan_last_idx_append]
    simp only [scan_last_idx, hx, if_true]
    rw [scan_last_idx_nomatch _ _ _ _ hpost]
    simp
  · intro web_map layer_name pre post x hdec hx hpost
    unfold get_webmap_operational_layers
    rw [hdec, scan_last_append]
    simp only [scan_last, hx, if_true]
    rw [scan_last_nomatch _ _ _ hpost]

/-- C1 witness: the spec's example `["Roads", "RoadsDetail", "Parcels"]` with
target `"Roads"` resolves to index 1 (the last match), and the analogous map
document resolves to the `RoadsDetail` record. -/
theorem C1_last_match_wins_witness :
    get_feature_layer_index
      [⟨"Roads", Option.none, []⟩, ⟨"RoadsDetail", Option.none, []⟩,
       ⟨"Parcels", Option.none, []⟩] "Roads" = Except.ok 1 ∧
    get_webmap_operational_layers
      ⟨[⟨"Roads", Option.none, "u0"⟩, ⟨"RoadsDetail", Option.none, "u1"⟩,
        ⟨"Parcels", Option.none, "u2"⟩]⟩ "Roads" =
      Except.ok ⟨"RoadsDetail", Option.none, "u1"⟩ :=
  ⟨C1_last_match_wins.1 _ "Roads" [⟨"Roads", Option.none, []⟩] [⟨"Parcels", Option.none, []⟩]
      ⟨"RoadsDetail", Option.none, []⟩ rfl (by decide) (by decide),
   C1_last_match_wins.2 _ "Roads" [⟨"Roads", Option.none, "u0"⟩] [⟨"Parcels", Option.none, "u2"⟩]
      ⟨"RoadsDetail", Option.none, "u1"⟩ rfl (by decide) (by decide)⟩

/-- C8 counterexample: with no matching layer the resolver raises the
uninitialized-local fault (`UnboundLocalError` on `layer_index`), which is not
the `NotFoundError` the claim names. -/
theorem C8_counterexample :
    get_feature_layer_index [⟨"Parcels", Option.none, []⟩] "Roads" =
      Except.error (PyErr.unboundLocalError "layer_index") ∧
    PyErr.unboundLocalError "layer_index" ≠ PyErr.notFoundError :=
  ⟨rfl, by decide⟩

/-- C8 (amended): when no layer's declared name contains the target,
`get_feature_layer_index` does not return an index; it fails, but with the
undefined-local fault (`UnboundLocalError`), not `NotFoundError`. -/
theorem C8_no_match_unbound_local (layers : List ServiceLayer) (layer_name : String)
    (h : ∀ y ∈ layers, strContains y.name layer_name = false) :
    get_feature_layer_index layers layer_name =
      Except.error (PyErr.unboundLocalError "layer_index") := by
  unfold get_feature_layer_index
  rw [scan_last_idx_nomatch _ _ _ _ h]

/-- C8 witness: a two-layer collection with no match fails with the
uninitialized-local fault. -/
theorem C8_no_match_unbound_local_witness :
    get_feature_layer_index [⟨"Parcels", Option.none, []⟩, ⟨"Streams", Option.none, []⟩]
      "Roads" = Except.error (PyErr.unboundLocalError "layer_index") :=
  C8_no_match_unbound_local _ "Roads" (by decide)

/-- C6 counterexample: `split_uppercase "ParcelID"` is `"Parcel I D"` (a space
before each of `I` and `D`), not the `"Parcel ID"` the claim states. -/
theorem C6_counterexample : split_uppercase "ParcelID" ≠ "Parcel ID" := by decide

/-- C6 (amended): `split_uppercase` inserts a separator before each internal
uppercase letter, so `split("ParcelID")` returns `"Parcel I D"`. -/
theorem C6_split_parcel_id : split_uppercase "ParcelID" = "Parcel I D" := by decide

/-- C5 counterexample: on the claim's exact input — field infos
`[{fieldName: "OBJECTID"}, {fieldName: "LandUseCode"}]` with no `label` key —
the builder does not return a description at all: the excluded `OBJECTID`
entry falls into the hosted branch, whose condition reads the missing
`label` key and raises `KeyError`. -/
theorem C5_counterexample :
    customize_popup_description ce5Ol "Feature Layer" =
      Except.error (PyErr.keyError "label") := rfl

/-- C5 (amended): with a `label` key present on the excluded `OBJECTID` entry
(the shape portal field infos have), the build returns the fixed font-opening
prefix followed by exactly one rendered line, for `LandUseCode`, with label
`"Land Use Code"`; the excluded entry contributes nothing. -/
theorem C5_one_line_for_landusecode :
    customize_popup_description am5Ol "Feature Layer" =
      Except.ok ("<font color=\x27#dc143c\x27 face=\x27Arial\x27 size=\x272\x27>" ++
        "<b> Land Use Code :</b>  \x7bLandUseCode\x7d  <br /><br />") := rfl

/-- Writing back the unchanged format is the identity on a field info. -/
theorem fieldinfo_eta (f : FieldInfo) : { f with format := f.format } = f := rfl

/-- One `if`/`elif` step of the inner loop only rewrites the format, by the
name-and-type rule. -/
theorem applyStep_eq (f : FieldInfo) (fld : Field) :
    applyStep f fld = { f with format := ruleStep f.fieldName f.format fld } := by
  unfold applyStep ruleStep
  by_cases h1 : f.fieldName = fld.name
  · rw [if_pos h1]
    by_cases h2 : fld.type = "esriFieldTypeDouble"
    · rw [if_pos ⟨h1, h2⟩]
      unfold numericRule overrideFormat
      rw [if_pos h2]
    · rw [if_neg (fun hand => h2 hand.2)]
      by_cases h3 : fld.type = "esriFieldTypeInteger"
      · rw [if_pos ⟨h1, h3⟩]
        unfold numericRule overrideFormat
        rw [if_neg h2, if_pos h3]
      · rw [if_neg (fun hand => h3 hand.2)]
        unfold numericRule overrideFormat
        rw [if_neg h2, if_neg h3]
  · rw [if_neg h1, if_neg (fun hand => h1 hand.1), if_neg (fun hand => h1 hand.1)]

/-- The whole inner loop only rewrites the format, by the folded rule. -/
theorem apply_foldl (fields : List Field) (f : FieldInfo) :
    fields.foldl applyStep f =
      { f with format := fields.foldl (ruleStep f.fieldName) f.format } := by
  induction fields generalizing f with
  | nil => rfl
  | cons fld t ih =>
    rw [List.foldl_cons, List.foldl_cons, ih, applyStep_eq]

/-- Folding the rule from any start equals overriding the start by the fold
from `none`: the last applicable rule wins, and with no applicable rule the
start survives. -/
theorem ruleFold_start (t : List Field) (nm : String) (x : Option FormatRule) :
    t.foldl (ruleStep nm) x = overrideFormat (lastNumericRule t nm) x := by
  induction t generalizing x with
  | nil => rfl
  | cons fld u ih =>
    have hcons : lastNumericRule (fld :: u) nm =
        overrideFormat (lastNumericRule u nm) (ruleStep nm Option.none fld) := by
      unfold lastNumericRule
      rw [List.foldl_cons]
      exact ih _
    rw [List.foldl_cons, ih _, hcons]
    cases hL : lastNumericRule u nm with
    | some r => rfl
    | none =>
      show ruleStep nm x fld = overrideFormat (ruleStep nm Option.none fld) x
      unfold ruleStep
      by_cases h : nm = fld.name
      · rw [if_pos h, if_pos h]
        cases numericRule fld.type <;> rfl
      · rw [if_neg h, if_neg h]
        rfl

/-- The inner `FieldsFormatted` loop on one entry: the format becomes the rule
of the last matching numeric schema field when one exists, and is otherwise
unchanged; nothing else in the entry changes. -/
theorem apply_field_formats_eq (fields : List Field) (f : FieldInfo) :
    apply_field_formats fields f =
      { f with format := overrideFormat (lastNumericRule fields f.fieldName) f.format } := by
  unfold apply_field_formats
  rw [apply_foldl, ruleFold_start]

/-- Entries with no matching numeric schema field are left untouched. -/
theorem apply_field_formats_of_none (fields : List Field) (f : FieldInfo)
    (h : lastNumericRule fields f.fieldName = Option.none) :
    apply_field_formats fields f = f := by
  rw [apply_field_formats_eq, h]
  rfl

/-- The loop never changes a field info's name, label or visibility. -/
theorem apply_field_formats_frame (fields : List Field) (f : FieldInfo) :
    (apply_field_formats fields f).fieldName = f.fieldName ∧
    (apply_field_formats fields f).label = f.label ∧
    (apply_field_formats fields f).visible = f.visible := by
  rw [apply_field_formats_eq]
  exact ⟨rfl, rfl, rfl⟩

/-- Folding the rule over fields that never match keeps the accumulator. -/
theorem ruleFold_nomatch (t : List Field) (nm : String) (x : Option FormatRule)
    (h : ∀ fld ∈ t, nm ≠ fld.name) :
    t.foldl (ruleStep nm) x = x := by
  induction t generalizing x with
  | nil => rfl
  | cons fld u ih =>
    rw [List.foldl_cons]
    rw [show ruleStep nm x fld = x from by
      unfold ruleStep
      rw [if_neg (h fld (List.mem_cons_self fld u))]]
    exact ih _ (fun g hg => h g (List.mem_cons_of_mem _ hg))

/-- With pairwise distinct schema field names, the folded rule for a name is
exactly the rule of the unique field bearing it. -/
theorem lastNumericRule_unique (fields : List Field) (fld : Field) (nm : String)
    (hnodup : (fields.map Field.name).Nodup) (hmem : fld ∈ fields) (hname : fld.name = nm) :
    lastNumericRule fields nm = numericRule fld.type := by
  induction fields with
  | nil => cases hmem
  | cons g t ih =>
    have hnd := List.nodup_cons.mp hnodup
    rcases List.mem_cons.mp hmem with rfl | hmem2
    · have hstep : ruleStep nm Option.none fld = numericRule fld.type := by
        unfold ruleStep
        rw [if_pos hname.symm]
        cases numericRule fld.type <;> rfl
      have hnot : ∀ g2 ∈ t, nm ≠ g2.name := by
        intro g2 hg2 heq2
        apply hnd.1
        rw [hname, heq2]
        exact List.mem_map_of_mem Field.name hg2
      unfold lastNumericRule
      rw [List.foldl_cons, hstep, ruleFold_nomatch t nm _ hnot]
    · have hgname : nm ≠ g.name := by
        intro heq2
        apply hnd.1
        rw [← heq2, ← hname]
        exact List.mem_map_of_mem Field.name hmem2
      have hstep : ruleStep nm Option.none g = Option.none := by
        unfold ruleStep
        rw [if_neg hgname]
      unfold lastNumericRule
      rw [List.foldl_cons, hstep]
      exact ih hnd.2 hmem2

/-- When every schema field bearing the name is non-numeric, the folded rule
is empty. -/
theorem lastNumericRule_none_of (fields : List Field) (nm : String)
    (h : ∀ fld ∈ fields, fld.name = nm → numericRule fld.type = Option.none) :
    lastNumericRule fields nm = Option.none := by
  induction fields with
  | nil => rfl
  | cons g t ih =>
    have hstep : ruleStep nm Option.none g = Option.none := by
      unfold ruleStep
      by_cases hg : nm = g.name
      · rw [if_pos hg, h g (List.mem_cons_self g t) hg.symm]
        rfl
      · rw [if_neg hg]
    unfold lastNumericRule
    rw [List.foldl_cons, hstep]
    exact ih (fun g2 hg2 hn2 => h g2 (List.mem_cons_of_mem _ hg2) hn2)

/-- C9 (confirmed): the `FieldsFormatted` rewriting loop is idempotent —
running it a second time over the same schema fields changes nothing, formats
included. -/
theorem C9_fields_formatted_idempotent (fields : List Field) (fis : List FieldInfo) :
    (fis.map (apply_field_formats fields)).map (apply_field_formats fields) =
      fis.map (apply_field_formats fields) := by
  induction fis with
  | nil => rfl
  | cons f t ih =>
    have hfd : (apply_field_formats fields f).fieldName = f.fieldName :=
      (apply_field_formats_frame fields f).1
    have hf : apply_field_formats fields (apply_field_formats fields f) =
        apply_field_formats fields f := by
      rw [apply_field_formats_eq fields (apply_field_formats fields f), hfd,
        apply_field_formats_eq fields f]
      cases lastNumericRule fields f.fieldName <;> rfl
    simp only [List.map_cons, hf, ih]

/-- Unfolding the synthesis in the hosted case: the existing popup is kept and
only its title, description and field formats change. -/
theorem synth_hosted (ol : OperationalLayer) (target : ServiceLayer)
    (mst ln : String) (p : PopupInfo) (hp : ol.popupInfo = Option.some p) :
    feature_layer_popup_synth ol target mst ln =
      match customize_popup_description (withPopup ol { p with title := ln }) mst with
      | Except.error e => Except.error e
      | Except.ok desc => Except.ok (withPopup ol (synthPopup p ln desc target.fields)) := by
  unfold feature_layer_popup_synth
  rw [hp]
  rfl

/-- Unfolding the synthesis in the registered case: the target layer's popup
is copied in and then retitled, described and formatted. -/
theorem synth_registered (ol : OperationalLayer) (target : ServiceLayer)
    (mst ln : String) (tp : PopupInfo) (hp : ol.popupInfo = Option.none)
    (ht : target.popupInfo = Option.some tp) :
    feature_layer_popup_synth ol target mst ln =
      match customize_popup_description (withPopup ol { tp with title := ln }) mst with
      | Except.error e => Except.error e
      | Except.ok desc => Except.ok (withPopup ol (synthPopup tp ln desc target.fields)) := by
  unfold feature_layer_popup_synth
  rw [hp, ht]
  rfl

/-- The synthesis is fatal when neither the operational layer nor the target
layer carries a popup. -/
theorem synth_no_popup (ol : OperationalLayer) (target : ServiceLayer)
    (mst ln : String) (hp : ol.popupInfo = Option.none)
    (ht : target.popupInfo = Option.none) :
    feature_layer_popup_synth ol target mst ln =
      Except.error (PyErr.keyError "popupInfo") := by
  unfold feature_layer_popup_synth
  rw [hp, ht]

/-- C2 (confirmed): in the hosted case (the operational layer's popup is
non-empty at entry) the synthesis keeps that popup — the result is built from
`p`, never from the schema layer's popup — and only its title, description and
the formats of numeric field infos change; every other part of the layer and
of each field-info entry is unchanged. -/
theorem C2_hosted_popup_preserved (ol : OperationalLayer) (target : ServiceLayer)
    (mst ln : String) (p : PopupInfo) (ol2 : OperationalLayer)
    (hp : ol.popupInfo = Option.some p)
    (h : feature_layer_popup_synth ol target mst ln = Except.ok ol2) :
    ∃ d, customize_popup_description (withPopup ol { p with title := ln }) mst = Except.ok d ∧
      ol2 = withPopup ol (synthPopup p ln d target.fields) ∧
      (∀ fi : FieldInfo, (apply_field_formats target.fields fi).fieldName = fi.fieldName ∧
        (apply_field_formats target.fields fi).label = fi.label ∧
        (apply_field_formats target.fields fi).visible = fi.visible) ∧
      (∀ fi : FieldInfo, lastNumericRule target.fields fi.fieldName = Option.none →
        apply_field_formats target.fields fi = fi) := by
  rw [synth_hosted ol target mst ln p hp] at h
  cases hc : customize_popup_description (withPopup ol { p with title := ln }) mst with
  | error e => rw [hc] at h; cases h
  | ok d =>
    rw [hc] at h
    injection h with h2
    exact ⟨d, rfl, h2.symm,
      fun fi => apply_field_formats_frame target.fields fi,
      fun fi hn => apply_field_formats_of_none target.fields fi hn⟩

/-- C2 witness: the sample hosted layer, its target schema with one double
field, evaluated through the theorem. -/
theorem C2_hosted_popup_preserved_witness :
    cw2Ol.popupInfo = Option.some cw2P ∧
    feature_layer_popup_synth cw2Ol cw2Target "Feature Layer" "Roads" = Except.ok cw2Res ∧
    (∃ d, customize_popup_description (withPopup cw2Ol { cw2P with title := "Roads" })
        "Feature Layer" = Except.ok d ∧
      cw2Res = withPopup cw2Ol (synthPopup cw2P "Roads" d cw2Target.fields) ∧
      (∀ fi : FieldInfo, (apply_field_formats cw2Target.fields fi).fieldName = fi.fieldName ∧
        (apply_field_formats cw2Target.fields fi).label = fi.label ∧
        (apply_field_formats cw2Target.fields fi).visible = fi.visible) ∧
      (∀ fi : FieldInfo, lastNumericRule cw2Target.fields fi.fieldName = Option.none →
        apply_field_formats cw2Target.fields fi = fi)) :=
  ⟨rfl, rfl,
    C2_hosted_popup_preserved cw2Ol cw2Target "Feature Layer" "Roads" cw2P cw2Res rfl rfl⟩

/-- C3 (confirmed): in the registered case (empty popup at entry) the final
popup is the schema layer's original popup except that the title becomes the
layer name, the description becomes the built description, and the field
formats are rewritten by the numeric rules. -/
theorem C3_registered_popup_copied (ol : OperationalLayer) (target : ServiceLayer)
    (mst ln : String) (ol2 : OperationalLayer)
    (hp : ol.popupInfo = Option.none)
    (h : feature_layer_popup_synth ol target mst ln = Except.ok ol2) :
    ∃ tp d, target.popupInfo = Option.some tp ∧
      customize_popup_description (withPopup ol { tp with title := ln }) mst = Except.ok d ∧
      ol2 = withPopup ol (synthPopup tp ln d target.fields) := by
  cases ht : target.popupInfo with
  | none =>
    rw [synth_no_popup ol target mst ln hp ht] at h
    cases h
  | some tp =>
    rw [synth_registered ol target mst ln tp hp ht] at h
    cases hc : customize_popup_description (withPopup ol { tp with title := ln }) mst with
    | error e => rw [hc] at h; cases h
    | ok d =>
      rw [hc] at h
      injection h with h2
      exact ⟨tp, d, rfl, hc, h2.symm⟩

/-- C3 witness: the sample registered layer evaluated through the theorem. -/
theorem C3_registered_popup_copied_witness :
    cw3Ol.popupInfo = Option.none ∧
    feature_layer_popup_synth cw3Ol cw3Target "Feature Layer" "Parcels" = Except.ok cw3Res ∧
    (∃ tp d, cw3Target.popupInfo = Option.some tp ∧
      customize_popup_description (withPopup cw3Ol { tp with title := "Parcels" })
        "Feature Layer" = Except.ok d ∧
      cw3Res = withPopup cw3Ol (synthPopup tp "Parcels" d cw3Target.fields)) :=
  ⟨rfl, rfl,
    C3_registered_popup_copied cw3Ol cw3Target "Feature Layer" "Parcels" cw3Res rfl rfl⟩

/-- C4 counterexample: the schema carries `X` as a double field and again as
an integer field; the single popup entry `X` matches the double field, so the
claim requires `{places: 2}`, but the loop's last match wins and the entry
ends with `{places: 0}`. -/
theorem C4_counterexample :
    (⟨"X", "esriFieldTypeDouble"⟩ : Field) ∈ ce4Target.fields ∧
    feature_layer_popup_synth ce4Ol ce4Target "Feature Layer" "L" = Except.ok ce4Res ∧
    ce4Res.popupInfo = Option.some ce4ResP ∧
    ce4ResP.fieldInfos = [⟨"X", Option.none, Option.some ⟨0, false⟩, true⟩] ∧
    Option.some (⟨0, false⟩ : FormatRule) ≠ Option.some ⟨2, false⟩ :=
  ⟨by decide, rfl, rfl, rfl, by decide⟩

/-- C4 (amended): after the synthesis, the final field infos are the source
popup's entries rewritten by the loop, and — provided schema field names are
pairwise distinct — an entry matching a double field carries
`{places: 2, digitSeparator: false}`, one matching an integer field carries
`{places: 0, digitSeparator: false}`, and an entry all of whose matches are
non-numeric (or that matches nothing) keeps its format.  (Without
distinctness, the rule of the last matching numeric field wins.) -/
theorem C4_numeric_formats (ol : OperationalLayer) (target : ServiceLayer)
    (mst ln : String) (p0 : PopupInfo) (ol2 : OperationalLayer)
    (hsrc : ol.popupInfo = Option.some p0 ∨
      (ol.popupInfo = Option.none ∧ target.popupInfo = Option.some p0))
    (h : feature_layer_popup_synth ol target mst ln = Except.ok ol2)
    (hnodup : (target.fields.map Field.name).Nodup) :
    (∀ p2, ol2.popupInfo = Option.some p2 →
       p2.fieldInfos = p0.fieldInfos.map (apply_field_formats target.fields)) ∧
    (∀ fi : FieldInfo,
      (∀ fld ∈ target.fields, fld.name = fi.fieldName →
        fld.type = "esriFieldTypeDouble" →
          (apply_field_formats target.fields fi).format =
            Option.some { places := 2, digitSeparator := false }) ∧
      (∀ fld ∈ target.fields, fld.name = fi.fieldName →
        fld.type = "esriFieldTypeInteger" →
          (apply_field_formats target.fields fi).format =
            Option.some { places := 0, digitSeparator := false }) ∧
      ((∀ fld ∈ target.fields, fld.name = fi.fieldName → numericRule fld.type = Option.none) →
        (apply_field_formats target.fields fi).format = fi.format)) := by
  have hstruct : ∃ d, ol2 = withPopup ol (synthPopup p0 ln d target.fields) := by
    rcases hsrc with hp | ⟨hp, ht⟩
    · rw [synth_hosted ol target mst ln p0 hp] at h
      cases hc : customize_popup_description (withPopup ol { p0 with title := ln }) mst with
      | error e => rw [hc] at h; cases h
      | ok d =>
        rw [hc] at h
        injection h with h2
        exact ⟨d, h2.symm⟩
    · rw [synth_registered ol target mst ln p0 hp ht] at h
      cases hc : customize_popup_description (withPopup ol { p0 with title := ln }) mst with
      | error e => rw [hc] at h; cases h
      | ok d =>
        rw [hc] at h
        injection h with h2
        exact ⟨d, h2.symm⟩
  constructor
  · intro p2 hp2
    rcases hstruct with ⟨d, rfl⟩
    have h3 : Option.some (synthPopup p0 ln d target.fields) = Option.some p2 := hp2
    injection h3 with h4
    rw [← h4]
    rfl
  · intro fi
    refine ⟨?_, ?_, ?_⟩
    · intro fld hmem hname htype
      have hrule : numericRule fld.type = Option.some { places := 2, digitSeparator := false } := by
        rw [htype]
        rfl
      rw [apply_field_formats_eq,
        lastNumericRule_unique target.fields fld fi.fieldName hnodup hmem hname, hrule]
      rfl
    · intro fld hmem hname htype
      have hrule : numericRule fld.type = Option.some { places := 0, digitSeparator := false } := by
        rw [htype]
        rfl
      rw [apply_field_formats_eq,
        lastNumericRule_unique target.fields fld fi.fieldName hnodup hmem hname, hrule]
      rfl
    · intro hall
      rw [apply_field_formats_eq, lastNumericRule_none_of target.fields fi.fieldName hall]
      rfl

/-- C4 witness: on the three-field sample (double, integer, string; distinct
names), the theorem yields `{2, no separator}`, `{0, no separator}`, and an
untouched format respectively. -/
theorem C4_numeric_formats_witness :
    (apply_field_formats cw4Target.fields ⟨"AvgValue", Option.none, Option.none, true⟩).format =
      Option.some { places := 2, digitSeparator := false } ∧
    (apply_field_formats cw4Target.fields ⟨"UnitCount", Option.none, Option.none, true⟩).format =
      Option.some { places := 0, digitSeparator := false } ∧
    (apply_field_formats cw4Target.fields ⟨"ZoneName", Option.none, Option.none, true⟩).format =
      Option.none := by
  have T := C4_numeric_formats cw4Ol cw4Target "Feature Layer" "Zones" cw4P cw4Res
    (Or.inl rfl) rfl (by decide)
  refine ⟨?_, ?_, ?_⟩
  · exact (T.2 ⟨"AvgValue", Option.none, Option.none, true⟩).1
      ⟨"AvgValue", "esriFieldTypeDouble"⟩ (by decide) rfl rfl
  · exact (T.2 ⟨"UnitCount", Option.none, Option.none, true⟩).2.1
      ⟨"UnitCount", "esriFieldTypeInteger"⟩ (by decide) rfl rfl
  · exact (T.2 ⟨"ZoneName", Option.none, Option.none, true⟩).2.2 (by decide)

/-- A non-string element makes the element loop of `create_new_webmap` raise
`TypeError`. -/
theorem check_layer_names_err (xs : List PyVal) (h : ∃ x ∈ xs, x.isStr = false) :
    check_layer_names xs =
      Except.error (PyErr.typeError "expected layer name to be type of str") := by
  induction xs with
  | nil =>
    rcases h with ⟨x, hx, _⟩
    cases hx
  | cons y t ih =>
    rcases h with ⟨x, hx, hs⟩
    rcases List.mem_cons.mp hx with rfl | hmem
    · cases x with
      | str s => exact Bool.noConfusion hs
      | int n => rfl
      | list l => rfl
      | nothing => rfl
    · cases y with
      | str s => exact ih ⟨x, hmem, hs⟩
      | int n => rfl
      | list l => rfl
      | nothing => rfl

/-- C10 (confirmed): `create_new_webmap` raises `TypeError` before any portal
effect — the effect trace is empty — whenever the project name is not a
string, the layer-name container is not a list, or some layer name is not a
string. -/
theorem C10_typechecks_before_portal (env : PortalEnv) (project_name layer_names : PyVal)
    (args : List String) :
    (project_name.isStr = false →
      create_new_webmap env project_name layer_names args =
        ([], Except.error (PyErr.typeError "expected project name to be type of str"))) ∧
    (project_name.isStr = true → layer_names.isList = false →
      create_new_webmap env project_name layer_names args =
        ([], Except.error (PyErr.typeError "expected layer names to be type of list"))) ∧
    (∀ xs, project_name.isStr = true → layer_names = PyVal.list xs →
      (∃ x ∈ xs, x.isStr = false) →
      create_new_webmap env project_name layer_names args =
        ([], Except.error (PyErr.typeError "expected layer name to be type of str"))) := by
  refine ⟨?_, ?_, ?_⟩
  · intro h
    cases project_name with
    | str s => exact Bool.noConfusion h
    | int n => rfl
    | list l => rfl
    | nothing => rfl
  · intro h1 h2
    cases project_name with
    | str s =>
      cases layer_names with
      | str s2 => rfl
      | int n => rfl
      | list l => exact Bool.noConfusion h2
      | nothing => rfl
    | int n => exact Bool.noConfusion h1
    | list l => exact Bool.noConfusion h1
    | nothing => exact Bool.noConfusion h1
  · intro xs h1 h2 h3
    subst h2
    cases project_name with
    | str s =>
      simp only [create_new_webmap, check_layer_names_err xs h3]
      rfl
    | int n => exact Bool.noConfusion h1
    | list l => exact Bool.noConfusion h1
    | nothing => exact Bool.noConfusion h1

/-- C10 witness: the three rejected shapes, each with an empty effect trace. -/
theorem C10_typechecks_before_portal_witness :
    create_new_webmap trivialEnv (PyVal.int 0) (PyVal.list []) [] =
      ([], Except.error (PyErr.typeError "expected project name to be type of str")) ∧
    create_new_webmap trivialEnv (PyVal.str "p") (PyVal.int 1) [] =
      ([], Except.error (PyErr.typeError "expected layer names to be type of list")) ∧
    create_new_webmap trivialEnv (PyVal.str "p") (PyVal.list [PyVal.int 7]) [] =
      ([], Except.error (PyErr.typeError "expected layer name to be type of str")) :=
  ⟨(C10_typechecks_before_portal trivialEnv (PyVal.int 0) (PyVal.list []) []).1 rfl,
   (C10_typechecks_before_portal trivialEnv (PyVal.str "p") (PyVal.int 1) []).2.1 rfl rfl,
   (C10_typechecks_before_portal trivialEnv (PyVal.str "p") (PyVal.list [PyVal.int 7]) []).2.2
     [PyVal.int 7] rfl rfl ⟨PyVal.int 7, List.mem_cons_self _ _, rfl⟩⟩

/-- An uppercase ASCII letter is not Python whitespace. -/
theorem upper_not_pyspace (c : Char) (h : c.isUpper = true) : isPySpace c = false := by
  cases hsp : isPySpace c with
  | false => rfl
  | true =>
    exfalso
    have hd : c = ' ' ∨ c = '\t' ∨ c = '\n' ∨ c = '\r' ∨ c = '\x0b' ∨ c = '\x0c' := by
      simpa [isPySpace, or_assoc] using hsp
    rcases hd with rfl | rfl | rfl | rfl | rfl | rfl <;> exact absurd h (by decide)

/-- Expansion adds exactly one character per uppercase letter. -/
theorem flatMap_expand_length (l : List Char) :
    (l.flatMap expandChar).length = l.length + l.countP Char.isUpper := by
  induction l with
  | nil => rfl
  | cons c t ih =>
    show (expandChar c ++ t.flatMap expandChar).length = _
    rw [List.length_append, ih, List.countP_cons, List.length_cons]
    cases hc : c.isUpper <;> simp [expandChar, hc] <;> omega

/-- Expansion of a non-empty word is non-empty. -/
theorem flatMap_expand_ne_nil (l : List Char) (h : l ≠ []) : l.flatMap expandChar ≠ [] := by
  intro hnil
  cases l with
  | nil => exact h rfl
  | cons c t =>
    have hlen := flatMap_expand_length (c :: t)
    rw [hnil] at hlen
    simp only [List.length_nil, List.length_cons] at hlen
    omega

/-- `getLast?` of an append with a non-empty right part. -/
theorem getLast?_append_right {α : Type} {l₁ l₂ : List α} (h : l₂ ≠ []) :
    (l₁ ++ l₂).getLast? = l₂.getLast? := by
  rw [List.getLast?_append]
  cases hE : l₂.getLast? with
  | some a => rfl
  | none => exact absurd (List.getLast?_eq_none_iff.mp hE) h

/-- Expansion keeps the last character (a space is only ever prepended). -/
theorem flatMap_expand_getLast (l : List Char) (h : l ≠ []) :
    (l.flatMap expandChar).getLast? = l.getLast? := by
  induction l with
  | nil => exact absurd rfl h
  | cons c t ih =>
    cases t with
    | nil =>
      show (expandChar c ++ [].flatMap expandChar).getLast? = [c].getLast?
      cases hc : c.isUpper <;>
        simp [expandChar, hc, List.getLast?_cons_cons, List.getLast?_singleton]
    | cons d u =>
      have htne : (d :: u : List Char) ≠ [] := by simp
      have hfm : (d :: u).flatMap expandChar ≠ [] := flatMap_expand_ne_nil _ htne
      show (expandChar c ++ (d :: u).flatMap expandChar).getLast? = (c :: d :: u).getLast?
      rw [getLast?_append_right hfm, ih htne, List.getLast?_cons_cons]

/-- The head surviving a `dropWhile` does not satisfy the predicate. -/
theorem head_dropWhile_not (p : Char → Bool) (l : List Char) :
    ((l.dropWhile p).head?.all fun c => !p c) = true := by
  induction l with
  | nil => rfl
  | cons c t ih =>
    cases hc : p c with
    | true => simp [List.dropWhile_cons, hc, ih]
    | false => simp [List.dropWhile_cons, hc]

/-- `dropWhile` is the identity when the head does not satisfy the
predicate. -/
theorem dropWhile_eq_self_of_head (p : Char → Bool) (l : List Char)
    (h : (l.head?.all fun c => !p c) = true) : l.dropWhile p = l := by
  cases l with
  | nil => rfl
  | cons c t =>
    have hc : p c = false := by simpa using h
    simp [List.dropWhile_cons, hc]

/-- Right strip is the identity when the last character is not whitespace. -/
theorem pyStripEnd_eq_self (l : List Char)
    (h : (l.getLast?.all fun c => !isPySpace c) = true) : pyStripEnd l = l := by
  unfold pyStripEnd
  rw [dropWhile_eq_self_of_head isPySpace l.reverse (by rw [List.head?_reverse]; exact h)]
  exact List.reverse_reverse l

/-- Left strip is the identity when the head is not whitespace. -/
theorem pyStripStart_eq_self (l : List Char)
    (h : (l.head?.all fun c => !isPySpace c) = true) : pyStripStart l = l :=
  dropWhile_eq_self_of_head isPySpace l h

/-- Character count of the split of a word with no surrounding whitespace:
the result is as long as the expansion, less the one leading space the strip
removes when the word starts with an uppercase letter. -/
theorem strip_flatMap_length (l : List Char)
    (hhead : (l.head?.all fun c => !isPySpace c) = true)
    (hlast : (l.getLast?.all fun c => !isPySpace c) = true) :
    (pyStrip (l.flatMap expandChar)).length + (if headUpperL l then 1 else 0) =
      l.length + l.countP Char.isUpper := by
  cases l with
  | nil => rfl
  | cons c t =>
    have hcs : isPySpace c = false := by simpa using hhead
    have hstart : pyStripStart ((c :: t).flatMap expandChar) = c :: t.flatMap expandChar := by
      show pyStripStart (expandChar c ++ t.flatMap expandChar) = _
      cases hu : c.isUpper with
      | true =>
        rw [show expandChar c = [' ', c] from by simp [expandChar, hu]]
        show pyStripStart (' ' :: c :: t.flatMap expandChar) = _
        unfold pyStripStart
        rw [List.dropWhile_cons, if_pos (show isPySpace ' ' = true from rfl),
          List.dropWhile_cons, if_neg (by simp [upper_not_pyspace c hu])]
      | false =>
        rw [show expandChar c = [c] from by simp [expandChar, hu]]
        show pyStripStart (c :: t.flatMap expandChar) = _
        unfold pyStripStart
        rw [List.dropWhile_cons, if_neg (by simp [hcs])]
    have hl2 : ((c :: t.flatMap expandChar).getLast?.all fun x => !isPySpace x) = true := by
      cases t with
      | nil =>
        show (([c] : List Char).getLast?.all fun x => !isPySpace x) = true
        simp [List.getLast?_singleton, hcs]
      | cons d u =>
        have htne : (d :: u : List Char) ≠ [] := by simp
        have hrne : (d :: u).flatMap expandChar ≠ [] := flatMap_expand_ne_nil _ htne
        have hstep : (c :: (d :: u).flatMap expandChar).getLast? =
            ((d :: u).flatMap expandChar).getLast? := by
          rw [show (c :: (d :: u).flatMap expandChar) =
            [c] ++ (d :: u).flatMap expandChar from rfl]
          exact getLast?_append_right hrne
        rw [hstep, flatMap_expand_getLast _ htne]
        rw [List.getLast?_cons_cons] at hlast
        exact hlast
    have hstrip : pyStrip ((c :: t).flatMap expandChar) = c :: t.flatMap expandChar := by
      unfold pyStrip
      rw [hstart, pyStripEnd_eq_self _ hl2]
    show (pyStrip ((c :: t).flatMap expandChar)).length + (if c.isUpper then 1 else 0) =
      (c :: t).length + (c :: t).countP Char.isUpper
    rw [hstrip, List.length_cons, List.length_cons, flatMap_expand_length t,
      List.countP_cons]
    cases hu : c.isUpper <;> simp [hu] <;> omega

/-- Expansion is the identity on words with no uppercase letter. -/
theorem flatMap_expand_id (l : List Char) (h : ∀ c ∈ l, c.isUpper = false) :
    l.flatMap expandChar = l := by
  induction l with
  | nil => rfl
  | cons c t ih =>
    show expandChar c ++ t.flatMap expandChar = c :: t
    rw [show expandChar c = [c] from by simp [expandChar, h c (List.mem_cons_self c t)],
      ih (fun d hd => h d (List.mem_cons_of_mem _ hd))]
    rfl

/-- Stripping only removes characters. -/
theorem mem_pyStrip {c : Char} {l : List Char} (h : c ∈ pyStrip l) : c ∈ l := by
  unfold pyStrip pyStripEnd pyStripStart at h
  have h1 : c ∈ (l.dropWhile isPySpace).reverse.dropWhile isPySpace := List.mem_reverse.mp h
  have h2 : c ∈ (l.dropWhile isPySpace).reverse := (List.dropWhile_suffix _).subset h1
  have h3 : c ∈ l.dropWhile isPySpace := List.mem_reverse.mp h2
  exact (List.dropWhile_suffix _).subset h3

/-- The head of a stripped word is not whitespace. -/
theorem pyStrip_head (l : List Char) :
    ((pyStrip l).head?.all fun c => !isPySpace c) = true := by
  unfold pyStrip
  have hsh : ((pyStripStart l).head?.all fun c => !isPySpace c) = true :=
    head_dropWhile_not isPySpace l
  cases hE : pyStripEnd (pyStripStart l) with
  | nil => rfl
  | cons a r =>
    have hpre : pyStripEnd (pyStripStart l) <+: pyStripStart l := by
      unfold pyStripEnd
      have hsuf : (pyStripStart l).reverse.dropWhile isPySpace <:+ (pyStripStart l).reverse :=
        List.dropWhile_suffix _
      rcases hsuf with ⟨v, hv⟩
      refine ⟨v.reverse, ?_⟩
      rw [show ((pyStripStart l).reverse.dropWhile isPySpace).reverse ++ v.reverse =
        (v ++ (pyStripStart l).reverse.dropWhile isPySpace).reverse from by
          rw [List.reverse_append], hv, List.reverse_reverse]
    rw [hE] at hpre
    rcases hpre with ⟨v, hv⟩
    have hhd : (pyStripStart l).head? = Option.some a := by
      rw [← hv]
      rfl
    rw [hhd] at hsh
    simpa using hsh

/-- The last character of a stripped word is not whitespace. -/
theorem pyStrip_last (l : List Char) :
    ((pyStrip l).getLast?.all fun c => !isPySpace c) = true := by
  show (((pyStripStart l).reverse.dropWhile isPySpace).reverse.getLast?.all
    fun c => !isPySpace c) = true
  rw [List.getLast?_reverse]
  exact head_dropWhile_not isPySpace _

/-- Python strip is idempotent. -/
theorem pyStrip_idem (l : List Char) : pyStrip (pyStrip l) = pyStrip l := by
  show pyStripEnd (pyStripStart (pyStrip l)) = pyStrip l
  rw [pyStripStart_eq_self _ (pyStrip_head l), pyStripEnd_eq_self _ (pyStrip_last l)]

/-- C7 counterexample: `" a"` has no uppercase letter, so `split_uppercase`
inserts no space at all, yet the result has fewer characters than the input
(the strip removed the input's own leading space) — refuting the claimed
count identity. -/
theorem C7_counterexample :
    (" a").data.countP Char.isUpper = 0 ∧
    (split_uppercase " a").length ≠ (" a").length := by
  constructor <;> decide

/-- C7 (amended): for words with no leading or trailing whitespace, the split
result's length exceeds the input's by one inserted space per uppercase
letter, less the single leading space stripped when the first letter is
uppercase — that is, ignoring the inserted spaces the counts agree; and the
split is idempotent on words with no uppercase letter (unconditionally). -/
theorem C7_count_and_idempotent :
    (∀ w : String,
      (w.data.head?.all fun c => !isPySpace c) = true →
      (w.data.getLast?.all fun c => !isPySpace c) = true →
      (split_uppercase w).length + (if headUpper w then 1 else 0) =
        w.length + w.data.countP Char.isUpper) ∧
    (∀ w : String, (∀ c ∈ w.data, c.isUpper = false) →
      split_uppercase (split_uppercase w) = split_uppercase w) := by
  constructor
  · intro w hh hl
    exact strip_flatMap_length w.data hh hl
  · intro w hnoup
    have h1 : w.data.flatMap expandChar = w.data := flatMap_expand_id w.data hnoup
    have hsw : split_uppercase w = String.mk (pyStrip w.data) := by
      unfold split_uppercase
      rw [h1]
    have hmem : ∀ c ∈ pyStrip w.data, c.isUpper = false :=
      fun c hc => hnoup c (mem_pyStrip hc)
    have h2 : (String.mk (pyStrip w.data)).data.flatMap expandChar = pyStrip w.data :=
      flatMap_expand_id _ hmem
    rw [hsw]
    unfold split_uppercase
    rw [h2]
    exact congrArg String.mk (pyStrip_idem w.data)

/-- C7 witness: the count identity at `"aB"` and idempotence at `"abc"`. -/
theorem C7_count_and_idempotent_witness :
    (split_uppercase "aB").length + (if headUpper "aB" then 1 else 0) =
      "aB".length + "aB".data.countP Char.isUpper ∧
    split_uppercase (split_uppercase "abc") = split_uppercase "abc" :=
  ⟨C7_count_and_idempotent.1 "aB" (by decide) (by decide),
   C7_count_and_idempotent.2 "abc" (by decide)⟩

end WebmapPopups
